import Mathlib

/-!
Verification of the water-intake dashboard (`src/dashboard.py`) aggregation
logic: a shallow embedding of the Python code into Lean, with theorems about
daily totals, goal progress, the trailing-window summary, pattern profiles,
the feedback failure path, and the recent-intakes view.
-/

namespace WaterTracker

/-- Calendar dates are modelled as epoch day numbers (day 0 is a Monday, so
day-of-week is the day number modulo 7). The Python code stores dates as
`YYYY-MM-DD` strings and compares them after normalisation; equality of day
numbers models equality of those normalised date strings. -/
abbrev Date := Int

/-- A row of the `water_intake` table as returned by `get_intake`:
`(id, user_id, intake_ml, date, timestamp)`. The timestamp's time-of-day is
kept as the hour and minute that `pd.to_datetime(...).dt.strftime('%H:%M')`
extracts from it; its calendar day is not used by the dashboard, which always
reads the separately stored `date` column. -/
structure Event where
  id : Nat
  user_id : String
  intake_ml : Nat
  date : Date
  hour : Nat
  minute : Nat
  deriving Repr, DecidableEq

/-- `get_todays_total` (dashboard.py lines 85-113), success path: if the
history is empty return 0, otherwise filter the rows whose stored `date`
(reformatted to a `YYYY-MM-DD` string) equals today's string and sum their
`intake_ml`. The current date is passed explicitly as `today`. -/
def get_todays_total (history : List Event) (today : Date) : Nat :=
  if history.isEmpty then 0
  else ((history.filter fun e => e.date = today).map fun e => e.intake_ml).sum

/-- The `except` branch of `get_todays_total` (lines 111-113): any failure of
the underlying query is caught, printed to the console only, and turned into
a result of 0. `histRes` is the outcome of the `get_intake` call. -/
def get_todays_total_r (histRes : Except String (List Event)) (today : Date) : Nat :=
  match histRes with
  | Except.error _ => 0
  | Except.ok history => get_todays_total history today

/-- The main-body computation of today's total (lines 180-182): filter the
history DataFrame by stored date equal to today's string, sum `intake_ml`.
Only reached when the history is non-empty. -/
def today_total (history : List Event) (today : Date) : Nat :=
  ((history.filter fun e => e.date = today).map fun e => e.intake_ml).sum

/-- The `DailyTotal` view of spec section 4.2.
Modelled from the spec: the `entryCount` field comes from
`get_daily_summary` in `src/database.py`, which is not part of the sources;
the filtering and summing mirror `get_todays_total` in `src/dashboard.py`. -/
structure DailyTotal where
  date : Date
  totalMl : Nat
  entryCount : Nat
  deriving Repr, DecidableEq

/-- Modelled from the spec: produce the `DailyTotal` for one target date by
filtering the events whose stored `calendarDate` equals the target date, then
summing `amountMl` and counting (spec section 4.2). The total agrees with the
code's `get_todays_total`. -/
def dailyTotal (history : List Event) (d : Date) : DailyTotal :=
  let evs := history.filter fun e => e.date = d
  { date := d
    totalMl := (evs.map fun e => e.intake_ml).sum
    entryCount := evs.length }

/-- The fixed daily goal (dashboard.py line 183). -/
def daily_goal : Nat := 2000

/-- `remaining = max(0, daily_goal - today_total)` with the goal as a
parameter; the dashboard instantiates it at the literal 2000. -/
def remaining_with (goal : Int) (t : Nat) : Int :=
  max 0 (goal - t)

/-- `remaining` as computed at dashboard.py line 192. -/
def remaining (t : Nat) : Int :=
  remaining_with daily_goal t

/-- `progress = min(1.0, today_total / daily_goal)` with the goal as a
parameter (Python float division modelled as rational division). -/
def progress_with (goal : Int) (t : Nat) : ℚ :=
  min 1 ((t : ℚ) / (goal : ℚ))

/-- `progress` as computed at dashboard.py line 196. -/
def progress (t : Nat) : ℚ :=
  progress_with daily_goal t

/-- The error taxonomy of spec section 7 that is visible to the embedded
functions. -/
inductive DBErr where
  | invalidArgument
  | persistenceError
  deriving Repr, DecidableEq

/-- The dashboard's goal-progress computation with the hard-coded literal
2000 generalised to a parameter, wrapped in `Except` to show which inputs
make it fail: none do — the code (lines 183-197) contains no validation of
the goal, so every call returns a normal result. -/
def goal_progress (goal : Int) (t : Nat) : Except DBErr (Int × ℚ) :=
  Except.ok (remaining_with goal t, progress_with goal t)

/-- The `windowDays` calendar dates ending at and including `today`, oldest
first. -/
def window_dates (today : Date) (days : Nat) : List Date :=
  (List.range days).map fun i => today - ((days - 1 - i : Nat) : Int)

/-- Modelled from the spec: `get_daily_summary` lives in `src/database.py`,
which is not among the sources — only its call site (`dashboard.py` line 207)
is. Per spec section 4.3 it enumerates the `windowDays` calendar dates ending
at and including today (oldest first), computes the section-4.2 `DailyTotal`
for each (zero-filling dates with no events), and fails with
`InvalidArgument` when `windowDays <= 0`. -/
def get_daily_summary (history : List Event) (today : Date) (days : Int) :
    Except DBErr (List DailyTotal) :=
  if days ≤ 0 then Except.error DBErr.invalidArgument
  else Except.ok ((window_dates today days.toNat).map fun d => dailyTotal history d)

/-- Arithmetic mean of a list of rationals, as `pandas` computes it for a
non-empty group. -/
def mean (l : List ℚ) : ℚ :=
  l.sum / (l.length : ℚ)

/-- The English weekday names in the fixed Monday-first order the dashboard
reindexes to (dashboard.py lines 279-281). -/
def dayNames : List String :=
  ["Monday", "Tuesday", "Wednesday", "Thursday", "Friday", "Saturday", "Sunday"]

/-- `day_name` of a stored calendar date, as `pandas` `dt.day_name()`
computes it (day 0 of the epoch being a Monday). -/
def day_name (d : Date) : String :=
  dayNames.getD (d % 7).toNat "Monday"

/-- The weekly pattern (dashboard.py lines 277-281): group the full history
by weekday name of the stored `date`, take the mean `intake_ml` per group,
then reindex on the fixed Monday-to-Sunday list — so the result always has
exactly 7 slots, and a weekday whose group is empty carries `NaN`, modelled
as `none`. -/
def weekly_pattern (history : List Event) : List (String × Option ℚ) :=
  dayNames.map fun dn =>
    let evs := history.filter fun e => day_name e.date = dn
    (dn, if evs.isEmpty then none
         else some (mean (evs.map fun e => (e.intake_ml : ℚ))))

/-- The hourly pattern (dashboard.py lines 291-292): group the full history
by the hour extracted from the timestamp's time-of-day and take the mean
`intake_ml` per group. There is no reindexing step, so the result holds one
entry per hour that actually has events, in ascending hour order (the order
`groupby` sorts group keys in); hours with no events are absent. Since every
extracted hour lies in 0..23, the sorted distinct present hours are exactly
the hours of `List.range 24` at which some event sits. -/
def hourly_pattern (history : List Event) : List (Nat × ℚ) :=
  ((List.range 24).filter fun hr => history.any fun e => e.hour = hr).map
    fun hr =>
      (hr, mean ((history.filter fun e => e.hour = hr).map fun e => (e.intake_ml : ℚ)))

/-- The two columns of one row of the Recent Intakes table: the `HH:MM` time
string (as an hour-minute pair) and the amount. -/
def rowView (e : Event) : (Nat × Nat) × Nat :=
  ((e.hour, e.minute), e.intake_ml)

/-- The Recent Intakes view (dashboard.py lines 222-228): select the time and
amount columns of the history DataFrame and take `.tail(5)` — the last five
rows in the order `get_intake` returned them, with no sorting. -/
def recent_intakes (history : List Event) : List ((Nat × Nat) × Nat) :=
  (history.map rowView).drop (history.length - 5)

/-- Minutes-since-epoch key of an event's full timestamp, used only to state
what "chronologically most recent" would mean. -/
def tsKey (e : Event) : Int :=
  e.date * 1440 + e.hour * 60 + e.minute

/-- The five chronologically most recent events' rows (what the Recent
Intakes view does NOT compute): sort the history by timestamp, then take the
last five rows. -/
def chronoLast5 (history : List Event) : List ((Nat × Nat) × Nat) :=
  ((history.insertionSort fun a b => tsKey a ≤ tsKey b).map rowView).drop
    (history.length - 5)

/-- What one run of the dashboard script renders, for the outputs the claims
are about. -/
structure Render where
  stopped : Bool
  logSuccess : Bool
  logErrorShown : Bool
  feedbackShown : Option String
  feedbackErrorShown : Bool
  totalsShown : Option (Nat × Int × ℚ)
  dataErrorShown : Bool
  deriving Repr, DecidableEq

/-- One top-to-bottom run of `dashboard.py`, parameterised by the outcomes of
its external calls. `agentInit` is the `WaterIntakeAgent()` construction in
`get_agent` (lines 44-52): on failure the script shows an error and calls
`st.stop()`, which halts the run before anything else renders. `logResult`
is the `log_intake` call, `analyze` the `agent.analyze_intake` call, and
`getIntake` the `get_intake` call; `submitted` tells whether the sidebar form
was submitted. The sidebar (lines 125-158) logs the intake, then inside a
nested `try` computes today's total via `get_todays_total` (whose own
`except` branch is `get_todays_total_r`) and asks for feedback, showing a
feedback error without aborting. The main body (lines 170-306) loads the
history, shows today's total, remaining and progress when the history is
non-empty, an info message when it is empty, and an error banner when
`get_intake` fails. -/
def run_dashboard (agentInit : Except String Unit)
    (analyze : Nat → Except String String)
    (logResult : Except String Bool)
    (getIntake : Except String (List Event))
    (today : Date) (submitted : Bool) : Render :=
  match agentInit with
  | Except.error _ =>
      { stopped := true, logSuccess := false, logErrorShown := false,
        feedbackShown := none, feedbackErrorShown := false,
        totalsShown := none, dataErrorShown := false }
  | Except.ok _ =>
      let sidebar : Bool × Bool × Option String × Bool :=
        if submitted then
          match logResult with
          | Except.error _ => (false, true, none, false)
          | Except.ok false => (false, true, none, false)
          | Except.ok true =>
              match analyze (get_todays_total_r getIntake today) with
              | Except.ok msg => (true, false, some msg, false)
              | Except.error _ => (true, false, none, true)
        else (false, false, none, false)
      let main : Option (Nat × Int × ℚ) × Bool :=
        match getIntake with
        | Except.error _ => (none, true)
        | Except.ok history =>
            if history.isEmpty then (none, false)
            else
              (some (today_total history today,
                     remaining (today_total history today),
                     progress (today_total history today)), false)
      { stopped := false, logSuccess := sidebar.1, logErrorShown := sidebar.2.1,
        feedbackShown := sidebar.2.2.1, feedbackErrorShown := sidebar.2.2.2,
        totalsShown := main.1, dataErrorShown := main.2 }

/-- The Event Store's state: the rows of the `water_intake` table and the
next autoincrement id. -/
structure Store where
  events : List Event
  nextId : Nat
  deriving Repr, DecidableEq

/-- Appending one intake row, as `log_intake` does on success. -/
def store_log_intake (s : Store) (uid : String) (amount : Nat)
    (d : Date) (hr mi : Nat) : Store × Bool :=
  ({ events := s.events ++ [⟨s.nextId, uid, amount, d, hr, mi⟩],
     nextId := s.nextId + 1 }, true)

/-- A summary query against the store: it reads the event list and leaves
the store untouched (the read path of `dashboard.py` never writes). -/
def query_daily_summary (s : Store) (today : Date) (days : Int) :
    Except DBErr (List DailyTotal) × Store :=
  (get_daily_summary s.events today days, s)

/-- A today's-total query against the store: reads only. -/
def query_todays_total (s : Store) (today : Date) : Nat × Store :=
  (get_todays_total s.events today, s)

/-- A concrete six-event history whose store order is not chronological: five
events on day 1 are followed by an event whose timestamp (day 0) is the
oldest of all. -/
def hC10 : List Event :=
  [⟨1, "u", 100, 1, 1, 0⟩, ⟨2, "u", 200, 1, 2, 0⟩, ⟨3, "u", 300, 1, 3, 0⟩,
   ⟨4, "u", 400, 1, 4, 0⟩, ⟨5, "u", 500, 1, 5, 0⟩, ⟨6, "u", 600, 0, 0, 0⟩]

/-- The two same-day events of the scenario in spec section 8: 500 ml at
08:00 and 700 ml at 20:00 on calendar date `d`. -/
def scenarioHistory (d : Date) : List Event :=
  [⟨1, "u", 500, d, 8, 0⟩, ⟨2, "u", 700, d, 20, 0⟩]

lemma get_todays_total_eq (h : List Event) (d : Date) :
    get_todays_total h d = today_total h d := by
  cases h with
  | nil => rfl
  | cons a t => rfl

lemma today_total_time_invariant (f g : Nat → Nat) (h : List Event) (d : Date) :
    today_total (h.map fun e => { e with hour := f e.hour, minute := g e.minute }) d
      = today_total h d := by
  induction h with
  | nil => rfl
  | cons a t ih =>
      by_cases hd : a.date = d <;>
        simp [today_total, List.filter_cons, hd] at ih ⊢ <;> omega

/-- C1: for every user history and target date, the daily total filters the
events whose stored calendar date equals the target date and sums their
`amountMl` — unchanged under any rewriting of the timestamps' time-of-day,
i.e. computed from the stored date, not recomputed from the timestamp — and
a user with zero events ever gets total 0 and count 0, not an error. -/
theorem C1_daily_total (h : List Event) (d : Date) :
    get_todays_total h d = (dailyTotal h d).totalMl ∧
    today_total h d = get_todays_total h d ∧
    (∀ f g : Nat → Nat,
        get_todays_total (h.map fun e => { e with hour := f e.hour, minute := g e.minute }) d
          = get_todays_total h d) ∧
    get_todays_total [] d = 0 ∧
    dailyTotal [] d = { date := d, totalMl := 0, entryCount := 0 } := by
  refine ⟨?_, (get_todays_total_eq h d).symm, ?_, rfl, rfl⟩
  · rw [get_todays_total_eq]; rfl
  · intro f g
    rw [get_todays_total_eq, get_todays_total_eq, today_total_time_invariant]

/-- C2: goal progress against the fixed goal 2000 satisfies
remaining = max(0, 2000 - T) and progress = min(1, T/2000); logging 500 ml
and 700 ml on the same day gives a daily total of 1200 with 2 entries,
remaining 800 and progress 3/5 = 0.6. -/
theorem C2_goal_progress (t : Nat) (d : Date) :
    remaining t = max 0 (2000 - (t : Int)) ∧
    progress t = min 1 ((t : ℚ) / 2000) ∧
    get_todays_total (scenarioHistory d) d = 1200 ∧
    (dailyTotal (scenarioHistory d) d).entryCount = 2 ∧
    remaining 1200 = 800 ∧
    progress 1200 = 3 / 5 := by
  refine ⟨?_, ?_, ?_, ?_, ?_, ?_⟩
  · norm_num [remaining, remaining_with, daily_goal]
  · norm_num [progress, progress_with, daily_goal]
  · simp [get_todays_total, scenarioHistory, List.filter_cons]
  · simp [dailyTotal, scenarioHistory, List.filter_cons]
  · norm_num [remaining, remaining_with, daily_goal]
  · norm_num [progress, progress_with, daily_goal]

/-- C9: the summary and today's-total queries are side-effect-free functions
of the stored event sequence — running either twice in succession leaves the
store unchanged and returns identical results both times. -/
theorem C9_queries_idempotent (s : Store) (today : Date) (days : Int) :
    (query_daily_summary s today days).1
      = (query_daily_summary (query_daily_summary s today days).2 today days).1 ∧
    (query_daily_summary s today days).2 = s ∧
    (query_todays_total s today).1
      = (query_todays_total (query_todays_total s today).2 today).1 ∧
    (query_todays_total s today).2 = s :=
  ⟨rfl, rfl, rfl, rfl⟩

lemma window_dates_seven (today : Date) :
    window_dates today 7
      = [today - 6, today - 5, today - 4, today - 3, today - 2, today - 1, today] := by
  simp [window_dates, List.range_succ]

lemma dailyTotal_of_no_events (h : List Event) (d : Date) (hnone : ∀ e ∈ h, e.date ≠ d) :
    dailyTotal h d = { date := d, totalMl := 0, entryCount := 0 } := by
  have hfil : h.filter (fun e => e.date = d) = [] := by
    rw [List.filter_eq_nil_iff]
    intro e he
    simp [hnone e he]
  simp [dailyTotal, hfil]

/-- C3: the trailing-window summary with windowDays = 7 returns exactly 7
per-day entries covering the 7 calendar dates ending at and including today,
oldest first, with dates that have no events present as zero entries rather
than omitted. -/
theorem C3_weekly_summary (h : List Event) (today : Date) :
    get_daily_summary h today 7
      = Except.ok ((window_dates today 7).map fun d => dailyTotal h d) ∧
    window_dates today 7
      = [today - 6, today - 5, today - 4, today - 3, today - 2, today - 1, today] ∧
    (∀ rows, get_daily_summary h today 7 = Except.ok rows → rows.length = 7) ∧
    (∀ d ∈ window_dates today 7, (∀ e ∈ h, e.date ≠ d) →
        dailyTotal h d = { date := d, totalMl := 0, entryCount := 0 }) := by
  refine ⟨by simp [get_daily_summary], window_dates_seven today, ?_, ?_⟩
  · intro rows hrows
    simp [get_daily_summary] at hrows
    subst hrows
    simp [window_dates_seven]
  · intro d _ hnone
    exact dailyTotal_of_no_events h d hnone

/-- Witness for C3: a user with no events still gets a zero-filled entry for
today in the 7-day window. -/
theorem C3_witness :
    dailyTotal ([] : List Event) (0 : Date) = { date := 0, totalMl := 0, entryCount := 0 } :=
  (C3_weekly_summary [] 0).2.2.2 0 (by decide) (by intro e he; cases he)

/-- Counterexample to C4 as stated: with a single event at hour 8, the
hourly pattern has exactly one bucket — hour 0 through 7 and 9 through 23
are omitted from the output entirely, not reported as no-data slots. -/
theorem C4_counterexample :
    (hourly_pattern [⟨1, "u", 400, 0, 8, 0⟩]).length = 1 ∧
    (hourly_pattern [⟨1, "u", 400, 0, 8, 0⟩]).map Prod.fst = [8] := by
  constructor <;> simp [hourly_pattern, List.map_map, Function.comp_def] <;> decide

/-- C4 (amended): the hour-of-day profile is keyed by the event's stored
local hour and contains exactly one bucket per hour with at least one event,
each non-empty bucket holding the mean amountMl of its events (a bucket with
a single event of amount X has mean exactly X); hours with no events are
omitted from the output altogether. -/
theorem C4_hourly_buckets (h : List Event) (hh : ∀ e ∈ h, e.hour < 24) :
    ((hourly_pattern h).map Prod.fst
       = (List.range 24).filter fun hr => h.any fun e => e.hour = hr) ∧
    (∀ hr : Nat, (∃ e ∈ h, e.hour = hr) ↔ ∃ q ∈ hourly_pattern h, q.1 = hr) ∧
    (∀ q ∈ hourly_pattern h,
        q.2 = mean ((h.filter fun e => e.hour = q.1).map fun e => (e.intake_ml : ℚ))) ∧
    (∀ hr : Nat, ∀ e0 : Event, h.filter (fun e => e.hour = hr) = [e0] →
        (hr, (e0.intake_ml : ℚ)) ∈ hourly_pattern h) := by
  refine ⟨?_, ?_, ?_, ?_⟩
  · simp [hourly_pattern, List.map_map, Function.comp_def]
  · intro hr
    simp only [hourly_pattern, List.mem_map, List.mem_filter, List.mem_range,
      List.any_eq_true]
    constructor
    · rintro ⟨e, he, hhr⟩
      exact ⟨_, ⟨hr, ⟨hhr ▸ hh e he, ⟨e, he, by simp [hhr]⟩⟩, rfl⟩, rfl⟩
    · rintro ⟨q, ⟨hr2, ⟨_, e, he, heq⟩, rfl⟩, hq1⟩
      exact ⟨e, he, by simp at heq; simp [heq, ← hq1]⟩
  · rintro q hq
    simp only [hourly_pattern, List.mem_map] at hq
    obtain ⟨hr2, _, rfl⟩ := hq
    rfl
  · intro hr e0 hfil
    have he0mem : e0 ∈ h.filter (fun e => e.hour = hr) := by
      rw [hfil]
      exact List.mem_singleton_self e0
    have he0 : e0 ∈ h := List.mem_of_mem_filter he0mem
    have hhr : e0.hour = hr := by
      have := List.of_mem_filter he0mem
      simpa using this
    simp only [hourly_pattern, List.mem_map]
    refine ⟨hr, ?_, ?_⟩
    · simp only [List.mem_filter, List.mem_range, List.any_eq_true]
      exact ⟨hhr ▸ hh e0 he0, ⟨e0, he0, by simp [hhr]⟩⟩
    · simp [hfil, mean]

/-- Witness for C4 (amended): the lone hour-8 event of 400 ml yields the
bucket (8, 400). -/
theorem C4_witness :
    ((8 : Nat), ((400 : Nat) : ℚ)) ∈ hourly_pattern [⟨1, "u", 400, 0, 8, 0⟩] :=
  (C4_hourly_buckets [⟨1, "u", 400, 0, 8, 0⟩] (by decide)).2.2.2 8
    ⟨1, "u", 400, 0, 8, 0⟩ (by decide)

/-- C5: the day-of-week profile is computed over the whole history, has
exactly 7 slots in Monday-first order, reports a weekday with no events as a
present slot with an absent value, and a bucket holding a single event of
amount X has mean exactly X. -/
theorem C5_weekday_buckets (h : List Event) :
    (weekly_pattern h).length = 7 ∧
    (weekly_pattern h).map Prod.fst = dayNames ∧
    (∀ dn ∈ dayNames, (∀ e ∈ h, day_name e.date ≠ dn) →
        (dn, (none : Option ℚ)) ∈ weekly_pattern h) ∧
    (∀ dn ∈ dayNames, ∀ e0 : Event, h.filter (fun e => day_name e.date = dn) = [e0] →
        (dn, some ((e0.intake_ml : ℚ))) ∈ weekly_pattern h) := by
  refine ⟨by simp [weekly_pattern, dayNames],
    by simp [weekly_pattern, List.map_map, Function.comp_def], ?_, ?_⟩
  · intro dn hdn hnone
    have hfil : h.filter (fun e => day_name e.date = dn) = [] := by
      rw [List.filter_eq_nil_iff]
      intro e he
      simp [hnone e he]
    simp only [weekly_pattern, List.mem_map]
    exact ⟨dn, hdn, by simp [hfil]⟩
  · intro dn hdn e0 hfil
    simp only [weekly_pattern, List.mem_map]
    exact ⟨dn, hdn, by simp [hfil, mean]⟩

/-- Witness for C5: with no events Monday is a present slot with no data,
and a single 500 ml event on a Tuesday gives Tuesday mean exactly 500. -/
theorem C5_witness :
    ("Monday", (none : Option ℚ)) ∈ weekly_pattern [] ∧
    ("Tuesday", some (((500 : Nat)) : ℚ)) ∈ weekly_pattern [⟨1, "u", 500, 1, 8, 0⟩] :=
  ⟨(C5_weekday_buckets []).2.2.1 "Monday" (by decide) (by intro e he; cases he),
   (C5_weekday_buckets [⟨1, "u", 500, 1, 8, 0⟩]).2.2.2 "Tuesday" (by decide)
     ⟨1, "u", 500, 1, 8, 0⟩ (by decide)⟩

/-- Counterexample to C6 as stated: when constructing the feedback agent
fails, the script stops and today's totals are never displayed, even though
the user has a non-empty history. -/
theorem C6_counterexample :
    (run_dashboard (Except.error "missing API key") (fun _ => Except.ok "drink up")
        (Except.ok true) (Except.ok [⟨1, "u", 500, 0, 8, 0⟩]) 0 true).totalsShown = none ∧
    (run_dashboard (Except.error "missing API key") (fun _ => Except.ok "drink up")
        (Except.ok true) (Except.ok [⟨1, "u", 500, 0, 8, 0⟩]) 0 true).stopped = true :=
  ⟨rfl, rfl⟩

/-- C6 (amended): once the feedback agent has been constructed, no failure of
the feedback generation step — nor anything else in the sidebar — prevents
today's total, remaining and progress from being shown for a non-empty
history. -/
theorem C6_feedback_isolated (analyze : Nat → Except String String)
    (logResult : Except String Bool) (h : List Event) (d : Date) (sub : Bool)
    (hne : h ≠ []) :
    (run_dashboard (Except.ok ()) analyze logResult (Except.ok h) d sub).totalsShown
      = some (today_total h d, remaining (today_total h d), progress (today_total h d)) := by
  cases h with
  | nil => exact absurd rfl hne
  | cons a t => rfl

/-- Witness for C6 (amended): a failing analyze call still leaves the totals
on screen. -/
theorem C6_witness :
    (run_dashboard (Except.ok ()) (fun _ => Except.error "model unavailable")
        (Except.ok true) (Except.ok [⟨1, "u", 500, 0, 8, 0⟩]) 0 true).totalsShown
      = some (today_total [⟨1, "u", 500, 0, 8, 0⟩] 0,
              remaining (today_total [⟨1, "u", 500, 0, 8, 0⟩] 0),
              progress (today_total [⟨1, "u", 500, 0, 8, 0⟩] 0)) :=
  C6_feedback_isolated (fun _ => Except.error "model unavailable") (Except.ok true)
    [⟨1, "u", 500, 0, 8, 0⟩] 0 true (by decide)

/-- Counterexample to C7 as stated: a failing store query inside
get_todays_total is converted into the result 0, indistinguishable from the
genuine zero total of a user with no events. -/
theorem C7_counterexample :
    get_todays_total_r (Except.error "PersistenceError: store unavailable") 0 = 0 ∧
    get_todays_total_r (Except.ok ([] : List Event)) 0 = 0 :=
  ⟨rfl, rfl⟩

/-- C7 (amended): the main dashboard body and the log-intake handler surface
store failures visibly — a get_intake failure shows the error banner and no
totals, and a log_intake failure shows an error — while get_todays_total
(feeding the feedback step) swallows any query failure into a silent 0. -/
theorem C7_error_surfacing (emsg : String) (analyze : Nat → Except String String)
    (logResult : Except String Bool) (d : Date) (sub : Bool) :
    get_todays_total_r (Except.error emsg) d = 0 ∧
    (run_dashboard (Except.ok ()) analyze logResult (Except.error emsg) d sub).dataErrorShown
      = true ∧
    (run_dashboard (Except.ok ()) analyze logResult (Except.error emsg) d sub).totalsShown
      = none ∧
    (run_dashboard (Except.ok ()) analyze (Except.error emsg)
        (Except.ok ([] : List Event)) d true).logErrorShown = true :=
  ⟨rfl, rfl, rfl, rfl⟩

/-- Counterexample to C8 as stated: a goal of -5 ml does not fail with
InvalidArgument — the goal-progress computation carries no validation and
returns a normal (and meaningless) result. -/
theorem C8_counterexample :
    goal_progress (-5) 100 = Except.ok (0, -20) := by
  norm_num [goal_progress, remaining_with, progress_with]

/-- C8 (amended): the trailing-window summary builder rejects
windowDays <= 0 with InvalidArgument, while the goal-progress computation
performs no validation of the goal and always returns a normal result. -/
theorem C8_window_validation (h : List Event) (today : Date) (days : Int)
    (g : Int) (t : Nat) (hd : days ≤ 0) :
    get_daily_summary h today days = Except.error DBErr.invalidArgument ∧
    goal_progress g t = Except.ok (remaining_with g t, progress_with g t) :=
  ⟨by simp [get_daily_summary, hd], rfl⟩

/-- Witness for C8 (amended): a window of 0 days is rejected and the default
goal of 2000 computes normally. -/
theorem C8_witness :
    get_daily_summary [] 0 0 = Except.error DBErr.invalidArgument ∧
    goal_progress 2000 0 = Except.ok (remaining_with 2000 0, progress_with 2000 0) :=
  C8_window_validation [] 0 0 2000 0 (by decide)

/-- C10: for a history of at least 5 events, the Recent Intakes view shows
exactly the last 5 rows of the sequence in the order the store returned it,
and on a concrete out-of-order history those differ from the 5
chronologically most recent events. -/
theorem C10_recent_intakes (h : List Event) (hlen : 5 ≤ h.length) :
    (recent_intakes h).length = 5 ∧
    recent_intakes h = (h.drop (h.length - 5)).map rowView ∧
    recent_intakes hC10 ≠ chronoLast5 hC10 := by
  refine ⟨?_, ?_, by decide⟩
  · simp [recent_intakes]
    omega
  · simp [recent_intakes, List.map_drop]

/-- Witness for C10: the six-event out-of-order history yields a five-row
Recent Intakes table. -/
theorem C10_witness :
    (recent_intakes hC10).length = 5 :=
  (C10_recent_intakes hC10 (by decide)).1

end WaterTracker
